import Mathlib

/-!
# Verification of the pre-deployment test harness (`full_app_test.py`)

A shallow embedding of the orchestration core of the repository's
verification script: the command executor (`run_command`), the step-timing
wrapper (`time_step`), the port-readiness polling loop, the HTTP endpoint
probes (`check_api_endpoints`), the web-server runtime step
(`test_web_server`) and the `main` orchestration / summary aggregation.

External effects are modelled explicitly:
* an external command's observable behaviour is a `CmdResult`
  (exit status and captured output streams);
* `urllib.request.urlopen`'s behaviour at a URL is determined by an
  `EndpointBehavior` (what the endpoint would answer, or that it is
  unreachable), and `urlopen` maps that to the documented Python
  semantics (a response object for 2xx, a raised `HTTPError` for other
  statuses, a raised `URLError` for network-level failures);
* exceptions are modelled with `Except`;
* `time.sleep` and wall-clock durations are modelled by counting slept
  seconds; printing is modelled by returning the classified message
  values that the source would print.
-/

namespace FullAppTest

/-- Observable behaviour of one external command invocation:
exit status plus the text captured from stdout and stderr. -/
structure CmdResult where
  exitCode : Nat
  stdout : String
  stderr : String
deriving DecidableEq

/-- `run_command(command, ..., capture_output, ignore_error)` from
`full_app_test.py` lines 29-49, applied to the behaviour `r` of the
spawned command.  `subprocess.run` is called with `check=not ignore_error`,
so it raises `CalledProcessError` exactly when `ignore_error` is false and
the exit status is non-zero; that exception is caught and turned into a
`(False, e.stdout, e.stderr)` return.  In every other case the call
returns normally and the function returns `(True, stdout, stderr)`
(empty strings when output is not captured). -/
def run_command (ignore_error capture_output : Bool) (r : CmdResult) :
    Bool × String × String :=
  if ignore_error = false ∧ r.exitCode ≠ 0 then
    (false, if capture_output then r.stdout else "",
      if capture_output then r.stderr else "")
  else
    if capture_output then (true, r.stdout, r.stderr) else (true, "", "")

/-- `run_linting` (lines 152-165): runs `npm run lint` through
`run_command` with `ignore_error=True`, prints a report, and returns
`True` unconditionally (the lint step is non-blocking). -/
def run_linting (r : CmdResult) : Bool :=
  let res := run_command true true r
  let _success := res.1
  true

/-- `run_static_analysis` (lines 170-188): runs `npx tsc --noEmit`
through `run_command` with `ignore_error=True`; returns `True` when
`success` holds and `False` otherwise. -/
def run_static_analysis (r : CmdResult) : Bool :=
  let res := run_command true true r
  if res.1 then true else false

/-- The step-timing wrapper `time_step` (lines 19-27).  The wrapper records
the start time, calls the wrapped function, computes the duration and
prints it, then returns the result unchanged.  Exceptions are modelled
with `Except`: the wrapper installs no handler, so an error raised by
`func` skips the duration print and propagates to the wrapper's caller
(`Except.bind` short-circuits on `.error`, exactly as a Python exception
bypasses the statements after the call). -/
def time_step {α : Type} (func : Unit → Except String α) : Unit → Except String α :=
  fun u => do
    let result ← func u
    pure result

/-- What an HTTP endpoint would do for one request: either it is reachable
and answers with a status and a body, or the request fails at the network
level (connection refused / timeout / DNS) with an error message. -/
inductive EndpointBehavior where
  | answers (status : Nat) (body : String)
  | unreachable (msg : String)
deriving DecidableEq

/-- An exception raised by `urllib.request.urlopen`: `HTTPError` carries
the non-2xx status code of a received response, `URLError` a
network-level failure. -/
inductive UrlExc where
  | httpError (code : Nat)
  | urlError (msg : String)
deriving DecidableEq

/-- A response object returned (not raised) by `urlopen`: its `status`
and the body available from `read()`. -/
structure HttpResponse where
  status : Nat
  body : String
deriving DecidableEq

/-- Modelled from the documented behaviour of Python's
`urllib.request.urlopen`, which every probe in the source calls: when the
endpoint answers, a status in the 2xx range yields a returned response
object, while any other status makes `urlopen` raise
`urllib.error.HTTPError` carrying that code; a network-level failure
(refused / timeout / DNS) makes it raise `urllib.error.URLError`. -/
def urlopen (b : EndpointBehavior) : Except UrlExc HttpResponse :=
  match b with
  | .answers status body =>
      if 200 ≤ status ∧ status ≤ 299 then .ok ⟨status, body⟩
      else .error (.httpError status)
  | .unreachable msg => .error (.urlError msg)

/-- The classified console message for one URL probe: the source prints
`"✅ {url} responded 200"`, `"⚠️ {url} responded {status}"` or
`"❌ {url} request failed: {e}"`. -/
inductive ProbeOutcome where
  | ok200
  | statusMismatch (code : Nat)
  | requestFailed (e : UrlExc)
deriving DecidableEq

/-- The per-URL body of the loop in `check_api_endpoints` (lines 338-348)
and, identically, of the URL-check loop in `test_web_server`
(lines 385-393): `try: urlopen(url)`, compare `resp.status` with 200,
`except Exception` catches everything else.  Total: the probe never
raises to its caller. -/
def probe_endpoint (b : EndpointBehavior) : ProbeOutcome :=
  match urlopen b with
  | .ok resp => if resp.status = 200 then .ok200 else .statusMismatch resp.status
  | .error e => .requestFailed e

/-- Whether a probe outcome leaves `all_ok` untouched (only a 200
response does; both other branches set `all_ok = False`). -/
def ProbeOutcome.isOk : ProbeOutcome → Bool
  | .ok200 => true
  | _ => false

/-- `check_api_endpoints` (lines 329-349): probes the two hard-coded
endpoints and returns `all_ok`, which survives as `True` exactly when
both probes answered 200. -/
def check_api_endpoints (health version : EndpointBehavior) :
    Bool × ProbeOutcome × ProbeOutcome :=
  let o1 := probe_endpoint health
  let o2 := probe_endpoint version
  (o1.isOk && o2.isOk, o1, o2)

/-- The readiness polling loop of `test_web_server` (lines 369-379),
generalised over the configuration the spec calls `maxAttempts` and
`intervalSeconds` (the source instantiates `max_wait = 45` attempts with a
1-second sleep).  `portOpen i` is the result of the `check_port` probe on
attempt `i` (attempts counted from `start`); each failed attempt is
followed by `time.sleep(interval)`.  Returns
`(ready, attemptsMade, secondsSlept)`. -/
def waitForPortAux (portOpen : Nat → Bool) (interval : Nat) :
    (start fuel : Nat) → Bool × Nat × Nat
  | _, 0 => (false, 0, 0)
  | start, fuel + 1 =>
    if portOpen start then (true, 1, 0)
    else
      let rest := waitForPortAux portOpen interval (start + 1) fuel
      (rest.1, rest.2.1 + 1, rest.2.2 + interval)

/-- `waitForPort portOpen maxAttempts interval`: the polling loop started
at attempt 0 with `maxAttempts` iterations available. -/
def waitForPort (portOpen : Nat → Bool) (maxAttempts interval : Nat) :
    Bool × Nat × Nat :=
  waitForPortAux portOpen interval 0 maxAttempts

/-- The root-div DOM sanity check of `test_web_server` (lines 395-403):
fetch the root document and look for the substring `<div id="root"`;
messages are `present` / `missing` / a caught fetch failure. -/
inductive RootDivMsg where
  | present
  | missing
  | fetchFailed (e : UrlExc)
deriving DecidableEq

/-- The substring the root document is searched for. -/
def rootDivMarker : String := "<div id=\"root\""

/-- The `try`-block at lines 395-403 of `test_web_server`: classify the
root document fetch.  `except Exception` catches any raised failure. -/
def root_div_check (b : EndpointBehavior) : RootDivMsg :=
  match urlopen b with
  | .ok resp =>
      if rootDivMarker.data <:+: resp.body.data then .present else .missing
  | .error e => .fetchFailed e

/-- Process-control actions performed by `test_web_server`, in order:
the pre-spawn `taskkill /F /IM node.exe` used to free a busy port, the
`subprocess.Popen(["npm", "run", "start-web"], ...)` spawn, and the
`finally`-block `taskkill /F /T /PID {pid}` tree-wide termination. -/
inductive Act where
  | killNodeByImage
  | spawnServer
  | terminateTree
deriving DecidableEq

/-- The world `test_web_server` runs against: whether port 8081 is busy
before the spawn, the result of each readiness `check_port` attempt after
the spawn, and the behaviour of the server for the k-th `urlopen` call
(call 0: `/`, call 1: `/manifest.json`, call 2: the root-div fetch of
`/`). -/
structure ServerWorld where
  portBusyInitially : Bool
  portOpenAt : Nat → Bool
  http : Nat → EndpointBehavior

/-- The observable run of `test_web_server`: its returned boolean, the
ordered process-control actions it performed, and the classified
console messages of the HTTP checks it reached. -/
structure WebServerRun where
  result : Bool
  acts : List Act
  urlChecks : List ProbeOutcome
  rootCheck : Option RootDivMsg
deriving DecidableEq

/-- `test_web_server` (lines 354-407).  If the port is busy a
`taskkill /IM node.exe` is issued; the server is spawned; inside
`try:` the readiness loop polls up to 45 times with 1-second sleeps —
on timeout the function returns `False` (through `finally`), otherwise
it runs the two URL checks and the root-div check (whose outcomes are
only printed; every raised failure among them is caught by the inner
`except Exception` handlers) and returns `True`.  The `finally:` block
always issues the tree-wide `taskkill /F /T /PID` on the spawned
process before the function returns, so `terminateTree` is the last
action on every path. -/
def test_web_server (w : ServerWorld) : WebServerRun :=
  let pre : List Act := if w.portBusyInitially then [.killNodeByImage] else []
  let spawned : List Act := pre ++ [.spawnServer]
  let poll := waitForPort w.portOpenAt 45 1
  if poll.1 then
    { result := true
      acts := spawned ++ [.terminateTree]
      urlChecks := [probe_endpoint (w.http 0), probe_endpoint (w.http 1)]
      rootCheck := some (root_div_check (w.http 2)) }
  else
    { result := false
      acts := spawned ++ [.terminateTree]
      urlChecks := []
      rootCheck := none }

/-- The step identifiers: the keys of the `results` dict in `main`
(lines 444-460), as an enumeration; `StepId.key` recovers the source's
string key. -/
inductive StepId where
  | file_structure
  | env_vars
  | dependencies
  | linting
  | static_analysis
  | type_check
  | unit_tests
  | coverage
  | build
  | firebase_config
  | expo_config
  | build_artifacts
  | api_endpoints
  | web_server
  | expo_dev
deriving DecidableEq

/-- The string key of each step in the `results` dict. -/
def StepId.key : StepId → String
  | .file_structure => "file_structure"
  | .env_vars => "env_vars"
  | .dependencies => "dependencies"
  | .linting => "linting"
  | .static_analysis => "static_analysis"
  | .type_check => "type_check"
  | .unit_tests => "unit_tests"
  | .coverage => "coverage"
  | .build => "build"
  | .firebase_config => "firebase_config"
  | .expo_config => "expo_config"
  | .build_artifacts => "build_artifacts"
  | .api_endpoints => "api_endpoints"
  | .web_server => "web_server"
  | .expo_dev => "expo_dev"

/-- The registered steps in the order the `results` dict initialises
them (lines 444-460), which is also the execution order. -/
def registeredSteps : List StepId :=
  [.file_structure, .env_vars, .dependencies, .linting, .static_analysis,
   .type_check, .unit_tests, .coverage, .build, .firebase_config,
   .expo_config, .build_artifacts, .api_endpoints, .web_server, .expo_dev]

/-- The `results` dict right after initialisation: every step mapped to
`False`, in registration order. -/
def initResults : List (StepId × Bool) :=
  registeredSteps.map (fun n => (n, false))

/-- Assignment `results[k] = v` on a Python dict whose key `k` already
exists: the value is replaced in place and the insertion order is
unchanged. -/
def setResult (k : StepId) (v : Bool) : List (StepId × Bool) → List (StepId × Bool)
  | [] => []
  | (n, b) :: rest => if n = k then (n, v) :: rest else (n, b) :: setResult k v rest

/-- Lookup `results[k]`. -/
def lookupResult (k : StepId) : List (StepId × Bool) → Option Bool
  | [] => none
  | (n, b) :: rest => if n = k then some b else lookupResult k rest

/-- The boolean outcome each step body would return if invoked in this
run, plus the behaviour of the `npm run lint` command consumed by
`run_linting`.  These are the inputs `main` feeds into its `results`
dict; whether a body actually runs is decided by `main` itself
(the web-server step is gated on the build step). -/
structure StepOutcomes where
  file_structure : Bool
  env_vars : Bool
  dependencies : Bool
  lint_cmd : CmdResult
  static_analysis : Bool
  type_check : Bool
  unit_tests : Bool
  coverage : Bool
  build : Bool
  firebase_config : Bool
  expo_config : Bool
  build_artifacts : Bool
  api_endpoints : Bool
  web_server : Bool
  expo_dev : Bool

/-- The orchestration core of `main` (lines 441-479): initialise the
`results` dict, invoke every step body in registration order and store
its outcome — except that `test_web_server` is invoked only when
`results["build"]` is true (lines 474-477); otherwise a skip header is
printed and the `web_server` entry keeps its initial `False`.  Returns
the final `results` together with the list of step bodies that were
actually invoked, in invocation order. -/
def mainRun (o : StepOutcomes) : List (StepId × Bool) × List StepId :=
  let r0 := initResults
  let r1 := setResult .file_structure o.file_structure r0
  let r2 := setResult .env_vars o.env_vars r1
  let r3 := setResult .dependencies o.dependencies r2
  let r4 := setResult .linting (run_linting o.lint_cmd) r3
  let r5 := setResult .static_analysis o.static_analysis r4
  let r6 := setResult .type_check o.type_check r5
  let r7 := setResult .unit_tests o.unit_tests r6
  let r8 := setResult .coverage o.coverage r7
  let r9 := setResult .build o.build r8
  let r10 := setResult .firebase_config o.firebase_config r9
  let r11 := setResult .expo_config o.expo_config r10
  let r12 := setResult .build_artifacts o.build_artifacts r11
  let r13 := setResult .api_endpoints o.api_endpoints r12
  let webInvoked := if lookupResult .build r13 = some true then [StepId.web_server] else []
  let r14 := if lookupResult .build r13 = some true
    then setResult .web_server o.web_server r13 else r13
  let r15 := setResult .expo_dev o.expo_dev r14
  (r15,
    [.file_structure, .env_vars, .dependencies, .linting, .static_analysis,
     .type_check, .unit_tests, .coverage, .build, .firebase_config,
     .expo_config, .build_artifacts, .api_endpoints]
      ++ webInvoked ++ [.expo_dev])

/-- The summary loop's accumulator (lines 482-487): `all_passed` starts
`True` and is set to `False` by every entry that is not ok and is not
the `linting` step. -/
def all_passed (results : List (StepId × Bool)) : Bool :=
  results.foldl
    (fun acc p => if p.2 = false ∧ p.1 ≠ StepId.linting then false else acc)
    true

/-- The process exit code (lines 488-493): `sys.exit(0)` when
`all_passed`, `sys.exit(1)` otherwise. -/
def exit_code (results : List (StepId × Bool)) : Nat :=
  if all_passed results then 0 else 1

/-- The status string printed for one summary row (line 484). -/
def statusStr (ok : Bool) : String :=
  if ok then "✅ PASS" else "❌ FAIL"

/-- The rendered summary table (lines 483-487): one `(name, status)` row
per `results` entry, in the dict's iteration order. -/
def summaryTable (results : List (StepId × Bool)) : List (String × String) :=
  results.map (fun p => (p.1.key, statusStr p.2))

/-- A step body that raises: `def body(): raise Exception("boom")`. -/
def raising_body : Unit → Except String Bool :=
  fun _ => .error "boom"

/-!
## Helper lemmas
-/

/-- Updating one key of the results map never changes its key sequence. -/
theorem setResult_map_fst (k : StepId) (v : Bool) :
    ∀ l : List (StepId × Bool), (setResult k v l).map Prod.fst = l.map Prod.fst := by
  intro l
  induction l with
  | nil => rfl
  | cons hd tl ih =>
    obtain ⟨n, b⟩ := hd
    by_cases hn : n = k <;> simp [setResult, hn, ih]

/-- In a results map with duplicate-free keys, lookup finds the stored
pair. -/
theorem lookupResult_eq_of_mem {n : StepId} {b : Bool} :
    ∀ l : List (StepId × Bool), (l.map Prod.fst).Nodup → (n, b) ∈ l →
      lookupResult n l = some b := by
  intro l
  induction l with
  | nil => intro _ h; cases h
  | cons hd tl ih =>
    obtain ⟨m, c⟩ := hd
    intro hnd hmem
    rcases List.mem_cons.mp hmem with heq | htl
    · cases heq
      simp [lookupResult]
    · have hm : m ∉ tl.map Prod.fst := (List.nodup_cons.mp (by simpa using hnd)).1
      have hne : n ≠ m := by
        intro hnm
        exact hm (hnm ▸ List.mem_map_of_mem Prod.fst htl)
      have hnd' : (tl.map Prod.fst).Nodup := (List.nodup_cons.mp (by simpa using hnd)).2
      simp [lookupResult, Ne.symm hne, ih hnd' htl]

set_option maxHeartbeats 2000000 in
/-- The final `results` of a run, entry by entry: every step's entry
holds the outcome its body returned, `linting` is always `True`
(`run_linting` is non-blocking), and `web_server` holds its body's
outcome when the build passed and keeps its initial `False` otherwise. -/
theorem mainRun_results (o : StepOutcomes) :
    (mainRun o).1 =
      [(.file_structure, o.file_structure), (.env_vars, o.env_vars),
       (.dependencies, o.dependencies), (.linting, true),
       (.static_analysis, o.static_analysis), (.type_check, o.type_check),
       (.unit_tests, o.unit_tests), (.coverage, o.coverage),
       (.build, o.build), (.firebase_config, o.firebase_config),
       (.expo_config, o.expo_config), (.build_artifacts, o.build_artifacts),
       (.api_endpoints, o.api_endpoints),
       (.web_server, if o.build then o.web_server else false),
       (.expo_dev, o.expo_dev)] := by
  obtain ⟨fs, ev, dep, lc, sa, tc, ut, cov, b, fc, ec, ba, ae, ws, ed⟩ := o
  cases b <;> rfl

/-- The step bodies `main` invokes: all of them, in registration order,
except that `test_web_server` is invoked only when the build passed. -/
theorem mainRun_invoked (o : StepOutcomes) :
    (mainRun o).2 =
      [.file_structure, .env_vars, .dependencies, .linting, .static_analysis,
       .type_check, .unit_tests, .coverage, .build, .firebase_config,
       .expo_config, .build_artifacts, .api_endpoints]
        ++ (if o.build then [StepId.web_server] else []) ++ [.expo_dev] := by
  obtain ⟨fs, ev, dep, lc, sa, tc, ut, cov, b, fc, ec, ba, ae, ws, ed⟩ := o
  cases b <;> rfl

/-- The summary loop computes the conjunction of `ok ∨ name = linting`
over all rows. -/
theorem all_passed_eq_all (l : List (StepId × Bool)) :
    all_passed l = l.all (fun p => p.2 || decide (p.1 = StepId.linting)) := by
  have hstep : ∀ (acc : Bool) (p : StepId × Bool),
      (if p.2 = false ∧ p.1 ≠ StepId.linting then false else acc)
        = (acc && (p.2 || decide (p.1 = StepId.linting))) := by
    intro acc p
    obtain ⟨n, b⟩ := p
    by_cases hn : n = StepId.linting <;> cases b <;> cases acc <;> simp [hn]
  have key : ∀ (l : List (StepId × Bool)) (acc : Bool),
      l.foldl (fun acc p =>
          if p.2 = false ∧ p.1 ≠ StepId.linting then false else acc) acc
        = (acc && l.all (fun p => p.2 || decide (p.1 = StepId.linting))) := by
    intro l
    induction l with
    | nil => intro acc; simp
    | cons hd tl ih =>
      intro acc
      rw [List.foldl_cons, hstep, ih, List.all_cons, ← Bool.and_assoc]
  rw [all_passed, key l true, Bool.true_and]

/-!
## Claim theorems
-/

/-- Claim C1: the claim says a non-zero exit always yields `ok=false`,
in particular under `ignore_error=True`.  The code disagrees: since
`subprocess.run` is called with `check=not ignore_error`, a failing
command under `ignore_error=True` raises nothing and takes the success
path, so `run_command` returns `ok=True` and `run_static_analysis`
reports success even when `tsc` fails (its error-reporting branch is
unreachable).  Only the `ignore_error=False` configuration returns
`ok=false` on failure, via the caught `CalledProcessError`.  This
theorem evaluates the code at the failing input. -/
theorem run_command_ignore_error_masks_failure :
    run_command true true ⟨2, "out", "err"⟩ = (true, "out", "err")
    ∧ run_static_analysis ⟨2, "", ""⟩ = true
    ∧ run_command false true ⟨2, "out", "err"⟩ = (false, "out", "err") :=
  ⟨rfl, rfl, rfl⟩

/-- Claim C3 counterexample: a step body that raises is not converted
into a `Fail` outcome at the `time_step` boundary — the error comes out
of the wrapper unchanged, so it propagates to the wrapper's caller. -/
theorem time_step_propagates_error_cex :
    time_step raising_body () = .error "boom"
    ∧ time_step raising_body () ≠ .ok true
    ∧ time_step raising_body () ≠ .ok false := by
  refine ⟨rfl, ?_, ?_⟩ <;> simp [time_step, raising_body]

/-- Claim C3 (amended): `time_step` returns the wrapped body's outcome
unchanged; it installs no handler, so an exception raised by the body
propagates through the wrapper rather than becoming a `Fail` result.
Failure containment, where present, lives inside the individual step
bodies. -/
theorem time_step_returns_body_outcome {α : Type} (body : Unit → Except String α) :
    time_step body () = body () := by
  cases h : body () <;> simp [time_step, h]

/-- Claim C4 counterexample: a reachable endpoint answering 404 does not
produce the status-mismatch outcome — `urlopen` raises `HTTPError` for
non-2xx statuses, so the probe classifies a 404 through the same
`except` branch as a network failure. -/
theorem probe_404_not_status_mismatch_cex :
    probe_endpoint (.answers 404 "Not Found") = .requestFailed (.httpError 404)
    ∧ probe_endpoint (.answers 404 "Not Found") ≠ .statusMismatch 404 := by
  refine ⟨rfl, ?_⟩
  decide

/-- Claim C4 (amended): the probe never raises to its caller (it is a
total function), but its classification differs from the claim: any
response status outside the 2xx range (e.g. 404) surfaces as a raised
`HTTPError` inside `urlopen` and is reported through the `except`
branch, exactly like a network-level failure; the status-comparison
branch only sees statuses `urlopen` returns without raising, so
`statusMismatch` occurs precisely for 2xx statuses other than 200, and
a 200 answer yields the ok outcome. -/
theorem probe_endpoint_classification (s : Nat) (body msg : String) :
    (¬(200 ≤ s ∧ s ≤ 299) →
      probe_endpoint (.answers s body) = .requestFailed (.httpError s))
    ∧ probe_endpoint (.unreachable msg) = .requestFailed (.urlError msg)
    ∧ ((200 ≤ s ∧ s ≤ 299) → s ≠ 200 →
      probe_endpoint (.answers s body) = .statusMismatch s)
    ∧ (s = 200 → probe_endpoint (.answers s body) = .ok200) := by
  refine ⟨?_, rfl, ?_, ?_⟩
  · intro h
    simp [probe_endpoint, urlopen, h]
  · intro h hne
    simp [probe_endpoint, urlopen, h, hne]
  · intro h
    subst h
    rfl

/-- Witness for C4's amended theorem at concrete inputs. -/
theorem probe_endpoint_classification_witness :
    probe_endpoint (.answers 404 "") = .requestFailed (.httpError 404)
    ∧ probe_endpoint (.answers 204 "") = .statusMismatch 204
    ∧ probe_endpoint (.answers 200 "") = .ok200 :=
  ⟨(probe_endpoint_classification 404 "" "").1 (by decide),
   (probe_endpoint_classification 204 "" "").2.2.1 (by decide) (by decide),
   (probe_endpoint_classification 200 "" "").2.2.2 rfl⟩

/-- Claim C7: the readiness poller returns true on the first attempt
with no sleeping when the port is connectable before the first attempt;
when no attempt ever succeeds it returns false after exactly
`maxAttempts` attempts, having slept `maxAttempts * intervalSeconds`
seconds in total. -/
theorem waitForPort_first_attempt_and_exhaustion
    (portOpen : Nat → Bool) (maxAttempts interval : Nat) :
    (portOpen 0 = true → 0 < maxAttempts →
      waitForPort portOpen maxAttempts interval = (true, 1, 0))
    ∧ ((∀ i, portOpen i = false) →
      waitForPort portOpen maxAttempts interval
        = (false, maxAttempts, maxAttempts * interval)) := by
  constructor
  · intro h hpos
    obtain ⟨n, rfl⟩ := Nat.exists_eq_succ_of_ne_zero (Nat.pos_iff_ne_zero.mp hpos)
    simp [waitForPort, waitForPortAux, h]
  · intro h
    have aux : ∀ (fuel start : Nat),
        waitForPortAux portOpen interval start fuel
          = (false, fuel, fuel * interval) := by
      intro fuel
      induction fuel with
      | zero => intro start; simp [waitForPortAux]
      | succ n ih =>
        intro start
        simp [waitForPortAux, h start, ih (start + 1), Nat.succ_mul]
    exact aux maxAttempts 0

/-- Witness for C7 at concrete inputs: an always-open port with 5
attempts, and a never-open port with 5 attempts and a 2-second
interval. -/
theorem waitForPort_first_attempt_and_exhaustion_witness :
    waitForPort (fun _ => true) 5 3 = (true, 1, 0)
    ∧ waitForPort (fun _ => false) 5 2 = (false, 5, 10) :=
  ⟨(waitForPort_first_attempt_and_exhaustion (fun _ => true) 5 3).1 rfl (by decide),
   (waitForPort_first_attempt_and_exhaustion (fun _ => false) 5 2).2 (fun _ => rfl)⟩

/-- Claim C2: the final verdict is false only if some step body that was
actually invoked, other than the ignorable `linting` step, returned a
failing outcome — never solely because the gated-out web-server step was
skipped (skipping only happens when the build step itself executed and
failed). -/
theorem verdict_false_implies_executed_failure (o : StepOutcomes)
    (h : all_passed (mainRun o).1 = false) :
    ∃ n : StepId, n ∈ (mainRun o).2 ∧ n ≠ StepId.linting ∧
      lookupResult n (mainRun o).1 = some false := by
  by_cases hb : o.build = true
  · have hkeys : (mainRun o).1.map Prod.fst = registeredSteps := by
      rw [mainRun_results]; rfl
    have hinv : (mainRun o).2 = registeredSteps := by
      rw [mainRun_invoked, hb]; rfl
    rw [all_passed_eq_all, List.all_eq_false] at h
    obtain ⟨p, hp, hfail⟩ := h
    obtain ⟨n, v⟩ := p
    simp only [Bool.or_eq_true, decide_eq_true_eq, not_or] at hfail
    obtain ⟨hv, hn⟩ := hfail
    have hv' : v = false := by
      cases v
      · rfl
      · exact absurd rfl hv
    subst hv'
    refine ⟨n, ?_, hn, ?_⟩
    · rw [hinv, ← hkeys]
      exact List.mem_map_of_mem Prod.fst hp
    · exact lookupResult_eq_of_mem _ (by rw [hkeys]; decide) hp
  · have hbf : o.build = false := by simpa using hb
    refine ⟨.build, ?_, by decide, ?_⟩
    · rw [mainRun_invoked, hbf]
      decide
    · rw [mainRun_results, hbf]
      simp [lookupResult]

/-- Witness for C2 at a concrete run in which only the build step fails
(and therefore the web-server step is skipped). -/
theorem verdict_false_implies_executed_failure_witness :
    ∃ n : StepId,
      n ∈ (mainRun (⟨true, true, true, ⟨0, "", ""⟩, true, true, true, true,
        false, true, true, true, true, true, true⟩ : StepOutcomes)).2
      ∧ n ≠ StepId.linting
      ∧ lookupResult n (mainRun (⟨true, true, true, ⟨0, "", ""⟩, true, true,
          true, true, false, true, true, true, true, true, true⟩ :
          StepOutcomes)).1 = some false :=
  verdict_false_implies_executed_failure _ (by decide)

/-- Claim C5: the run exits with code 0 exactly when every result entry
other than the ignorable `linting` entry is a pass, and with code 1
otherwise; moreover the value stored for `linting` has no influence on
the exit code. -/
theorem exit_code_zero_iff_nonignorable_pass (o : StepOutcomes) (b : Bool) :
    (exit_code (mainRun o).1 = 0 ↔
      ∀ p ∈ (mainRun o).1, p.1 ≠ StepId.linting → p.2 = true)
    ∧ exit_code (setResult .linting b (mainRun o).1) = exit_code (mainRun o).1 := by
  have hpoint : ∀ p : StepId × Bool,
      ((p.2 || decide (p.1 = StepId.linting)) = true
        ↔ (p.1 ≠ StepId.linting → p.2 = true)) := by
    intro p
    obtain ⟨n, v⟩ := p
    by_cases hn : n = StepId.linting <;> cases v <;> simp [hn]
  constructor
  · have h0 : exit_code (mainRun o).1 = 0 ↔ all_passed (mainRun o).1 = true := by
      unfold exit_code
      by_cases h : all_passed (mainRun o).1 <;> simp [h]
    rw [h0, all_passed_eq_all, List.all_eq_true]
    exact ⟨fun h p hp => (hpoint p).mp (h p hp),
           fun h p hp => (hpoint p).mpr (h p hp)⟩
  · have lint_ind : ∀ l : List (StepId × Bool),
        all_passed (setResult .linting b l) = all_passed l := by
      intro l
      rw [all_passed_eq_all, all_passed_eq_all]
      induction l with
      | nil => rfl
      | cons hd tl ih =>
        obtain ⟨n, c⟩ := hd
        by_cases hn : n = StepId.linting
        · subst hn
          simp [setResult]
        · simp [setResult, hn, ih]
    unfold exit_code
    rw [lint_ind]

/-- Claim C6 counterexample: at a concrete run in which only the build
step fails, the gated-out web-server step's summary row reads
`"❌ FAIL"` — the same rendering as an executed failure — and no row of
the table carries any `Skipped` marking (the result values are plain
booleans, so no distinct skip outcome exists to record). -/
theorem web_server_skip_rendered_fail_cex :
    summaryTable (mainRun (⟨true, true, true, ⟨0, "", ""⟩, true, true, true,
        true, false, true, true, true, true, true, true⟩ : StepOutcomes)).1 =
      [("file_structure", "✅ PASS"), ("env_vars", "✅ PASS"),
       ("dependencies", "✅ PASS"), ("linting", "✅ PASS"),
       ("static_analysis", "✅ PASS"), ("type_check", "✅ PASS"),
       ("unit_tests", "✅ PASS"), ("coverage", "✅ PASS"),
       ("build", "❌ FAIL"), ("firebase_config", "✅ PASS"),
       ("expo_config", "✅ PASS"), ("build_artifacts", "✅ PASS"),
       ("api_endpoints", "✅ PASS"), ("web_server", "❌ FAIL"),
       ("expo_dev", "✅ PASS")] := by
  rfl

/-- Claim C6 (amended): when the build step fails, the web-server body
is never invoked (so no server process is spawned for it — the spawn
happens only inside `test_web_server`), and the step's entry keeps its
initial `False`, which the summary renders as `FAIL`; a skip header is
printed, but no distinct `Skipped` outcome is recorded. -/
theorem build_fail_gates_web_server (o : StepOutcomes) (h : o.build = false) :
    StepId.web_server ∉ (mainRun o).2
    ∧ lookupResult .web_server (mainRun o).1 = some false := by
  constructor
  · rw [mainRun_invoked, h]
    decide
  · rw [mainRun_results, h]
    simp [lookupResult]

/-- Witness for C6's amended theorem at a concrete run with a failing
build. -/
theorem build_fail_gates_web_server_witness :
    StepId.web_server ∉ (mainRun (⟨false, false, false, ⟨1, "", ""⟩, false,
        false, false, false, false, false, false, false, false, false,
        false⟩ : StepOutcomes)).2
    ∧ lookupResult .web_server (mainRun (⟨false, false, false, ⟨1, "", ""⟩,
        false, false, false, false, false, false, false, false, false,
        false, false⟩ : StepOutcomes)).1 = some false :=
  build_fail_gates_web_server _ rfl

/-- Claim C8: after every complete run the result set has exactly one
entry per registered step (a gated-out step keeps its entry), its key
sequence equals the registration order with no duplicates, and the
rendered summary table lists exactly those keys in the same order. -/
theorem resultset_complete_ordered (o : StepOutcomes) :
    (mainRun o).1.map Prod.fst = registeredSteps
    ∧ registeredSteps.Nodup
    ∧ (mainRun o).1.length = registeredSteps.length
    ∧ (summaryTable (mainRun o).1).map Prod.fst = registeredSteps.map StepId.key := by
  refine ⟨?_, by decide, ?_, ?_⟩
  · rw [mainRun_results]; rfl
  · rw [mainRun_results]; rfl
  · rw [mainRun_results]; rfl

/-- Claim C9: on every exit path of the web-server runtime step after
the spawn — normal completion, failed readiness check, or any failure
raised by the HTTP checks (all of which are caught inside the scope) —
the tree-wide termination of the spawned process is performed, as the
final process-control action before the step returns. -/
theorem test_web_server_terminates_tree (w : ServerWorld) :
    (test_web_server w).acts.getLast? = some Act.terminateTree
    ∧ Act.terminateTree ∈ (test_web_server w).acts := by
  unfold test_web_server
  by_cases hp : (waitForPort w.portOpenAt 45 1).1 <;>
    by_cases hb : w.portBusyInitially <;>
      simp [hp, hb, List.getLast?_concat]

/-- Claim C10: once the readiness poll has succeeded, the web-server
step returns `True`, whatever the subsequent HTTP probes and the
root-div check produce: their outcomes are only reported, never fed
into the returned value. -/
theorem web_server_pass_once_ready (w : ServerWorld)
    (h : (waitForPort w.portOpenAt 45 1).1 = true) :
    (test_web_server w).result = true := by
  unfold test_web_server
  simp [h]

/-- Witness for C10: a world whose port is open from the first attempt
while every HTTP request fails outright still yields a passing step. -/
theorem web_server_pass_once_ready_witness :
    (test_web_server
      { portBusyInitially := false
        portOpenAt := fun _ => true
        http := fun _ => .unreachable "connection refused" }).result = true :=
  web_server_pass_once_ready _ rfl

/-- Witness for C3's amended theorem at a concrete body. -/
theorem time_step_returns_body_outcome_witness :
    time_step raising_body () = raising_body () :=
  time_step_returns_body_outcome raising_body

/-- Witness for C5 at a concrete run with every step body passing:
the exit code is 0. -/
theorem exit_code_zero_iff_nonignorable_pass_witness :
    exit_code (mainRun (⟨true, true, true, ⟨0, "", ""⟩, true, true, true,
      true, true, true, true, true, true, true, true⟩ : StepOutcomes)).1 = 0 :=
  ((exit_code_zero_iff_nonignorable_pass (⟨true, true, true, ⟨0, "", ""⟩,
    true, true, true, true, true, true, true, true, true, true, true⟩ :
    StepOutcomes) false).1).mpr (by decide)

/-- Witness for C8 at a concrete run. -/
theorem resultset_complete_ordered_witness :
    (mainRun (⟨true, false, true, ⟨0, "", ""⟩, false, true, false, true,
      false, true, false, true, false, true, false⟩ : StepOutcomes)).1.map
        Prod.fst = registeredSteps :=
  (resultset_complete_ordered (⟨true, false, true, ⟨0, "", ""⟩, false, true,
    false, true, false, true, false, true, false, true, false⟩ :
    StepOutcomes)).1

/-- Witness for C9 at a concrete world whose port never opens. -/
theorem test_web_server_terminates_tree_witness :
    (test_web_server
      { portBusyInitially := true
        portOpenAt := fun _ => false
        http := fun _ => .unreachable "refused" }).acts.getLast?
      = some Act.terminateTree :=
  (test_web_server_terminates_tree
    { portBusyInitially := true
      portOpenAt := fun _ => false
      http := fun _ => .unreachable "refused" }).1

end FullAppTest
